import Mathlib

/-!
Verification of the stock_check analysis pipeline (backend/app).

This file shallowly embeds the parts of the Python source that the
specification's claims are about: the performance analyzer, the earnings
and news collectors with their TTL caches, the holdings payload parser,
the LLM-fallback summary path, the analyze endpoint's single-flight state
machine, and the scheduler's cron update.  External library calls
(yfinance, httpx, strptime, CronTrigger, the LLM) are modelled as
parameters at the interface boundary; everything computed inside the
repository is translated directly from the source.

Numeric values use ℚ (Python floats are used only for arithmetic that the
claims state exactly); timestamps use ℤ seconds.
-/

namespace StockCheck

/-- Python's stable `list.sort(key=..., reverse=...)` is modelled by a
stable insertion sort parameterised by the boolean relation
`r a b = "a may stay in front of b"` (for an ascending key sort
`r a b = key a ≤ key b`, for a descending one `r a b = key b ≤ key a`).
An element is inserted in front of the first element it is `r`-related
to, which preserves the original order of elements with equal keys,
exactly like CPython's stable sort. -/
def pyInsert (r : α → α → Bool) (a : α) : List α → List α
  | [] => [a]
  | b :: l => if r a b then a :: b :: l else b :: pyInsert r a l

/-- Stable sort used to model Python's `list.sort` / `sorted`. -/
def pySort (r : α → α → Bool) : List α → List α
  | [] => []
  | a :: l => pyInsert r a (pySort r l)

theorem pyInsert_perm (r : α → α → Bool) (a : α) (l : List α) :
    List.Perm (pyInsert r a l) (a :: l) := by
  induction l with
  | nil => simp [pyInsert]
  | cons b t ih =>
    by_cases h : r a b
    · simp [pyInsert, h]
    · simp only [pyInsert, h, if_neg, Bool.false_eq_true, not_false_iff, if_false]
      exact (ih.cons b).trans (List.Perm.swap a b t)

theorem pySort_perm (r : α → α → Bool) (l : List α) : List.Perm (pySort r l) l := by
  induction l with
  | nil => simp [pySort]
  | cons a t ih =>
    exact (pyInsert_perm r a (pySort r t)).trans (ih.cons a)

theorem mem_pySort {r : α → α → Bool} {l : List α} {x : α} :
    x ∈ pySort r l ↔ x ∈ l :=
  (pySort_perm r l).mem_iff

theorem pyInsert_sorted {r : α → α → Bool}
    (total : ∀ a b, r a b = true ∨ r b a = true)
    (trans : ∀ a b c, r a b = true → r b c = true → r a c = true)
    (a : α) {l : List α} (hl : l.Pairwise (fun x y => r x y = true)) :
    (pyInsert r a l).Pairwise (fun x y => r x y = true) := by
  induction l with
  | nil => simp [pyInsert]
  | cons b t ih =>
    rcases List.pairwise_cons.mp hl with ⟨hb, ht⟩
    by_cases h : r a b
    · simp only [pyInsert, h, if_pos]
      refine List.pairwise_cons.mpr ⟨?_, hl⟩
      intro x hx
      rcases List.mem_cons.mp hx with rfl | hx
      · exact h
      · exact trans a b x h (hb x hx)
    · simp only [pyInsert, h, if_neg, Bool.false_eq_true, not_false_iff, if_false]
      refine List.pairwise_cons.mpr ⟨?_, ih ht⟩
      intro x hx
      rcases List.mem_cons.mp ((pyInsert_perm r a t).mem_iff.mp hx) with he | hx
      · rw [he]
        rcases total a b with h' | h'
        · exact absurd h' h
        · exact h'
      · exact hb x hx

theorem pySort_sorted {r : α → α → Bool}
    (total : ∀ a b, r a b = true ∨ r b a = true)
    (trans : ∀ a b c, r a b = true → r b c = true → r a c = true)
    (l : List α) :
    (pySort r l).Pairwise (fun x y => r x y = true) := by
  induction l with
  | nil => simp [pySort]
  | cons a t ih => exact pyInsert_sorted total trans a ih

/-- Stability of `pyInsert`: provided that un-related elements never share
a key, filtering the inserted list by any fixed key value `k` either
prepends `a` (when `a` has key `k`) or leaves the filtered list alone. -/
theorem filter_pyInsert {r : α → α → Bool} {key : α → β} [DecidableEq β]
    (hkey : ∀ a b, r a b = false → key a ≠ key b)
    (a : α) (l : List α) (k : β) :
    (pyInsert r a l).filter (fun x => key x = k) =
      (if key a = k then [a] else []) ++ l.filter (fun x => key x = k) := by
  induction l with
  | nil =>
    by_cases hk : key a = k <;> simp [pyInsert, hk]
  | cons b t ih =>
    by_cases h : r a b
    · by_cases hk : key a = k <;> simp [pyInsert, h, hk]
    · have hb : key b ≠ key a := fun e => hkey a b (by simpa using h) e.symm
      by_cases hk : key a = k
      · have hbk : ¬ key b = k := fun e => hb (e.trans hk.symm)
        simp [pyInsert, h, hk, hbk, ih]
      · by_cases hbk : key b = k <;> simp [pyInsert, h, hk, hbk, ih]

/-- Stability of `pySort`: the subsequence of elements with any fixed key
is unchanged by the sort (Python's sorts are stable). -/
theorem filter_pySort {r : α → α → Bool} {key : α → β} [DecidableEq β]
    (hkey : ∀ a b, r a b = false → key a ≠ key b)
    (l : List α) (k : β) :
    (pySort r l).filter (fun x => key x = k) = l.filter (fun x => key x = k) := by
  induction l with
  | nil => simp [pySort]
  | cons a t ih =>
    by_cases hk : key a = k
    · simp [pySort, filter_pyInsert hkey, hk, ih]
    · simp [pySort, filter_pyInsert hkey, hk, ih]

/-! ## Character-level string helpers

Core `String.toUpper` / `String.splitOn` do not reduce in the kernel, so
the Python string operations used by the source are modelled directly on
the character lists.  The fragment is ASCII (ticker symbols, cron
expressions), which is all the repository ever feeds them. -/

/-- `str.upper()` on the ASCII fragment. -/
def pyCharUpper (c : Char) : Char :=
  if 97 ≤ c.toNat ∧ c.toNat ≤ 122 then Char.ofNat (c.toNat - 32) else c

/-- `str.upper()` (ASCII fragment). -/
def pyUpper (s : String) : String := ⟨s.data.map pyCharUpper⟩

/-- Python `str.split()` whitespace test. -/
def isWS (c : Char) : Bool := c = ' ' ∨ c = '\t' ∨ c = '\n' ∨ c = '\r'

/-- Worker for `pySplit`: accumulates the current word (reversed) and the
words found so far (reversed). -/
def splitWSAux (cur : List Char) (acc : List String) : List Char → List String
  | [] => (if cur.isEmpty then acc else ⟨cur.reverse⟩ :: acc).reverse
  | c :: cs =>
    if isWS c then splitWSAux [] (if cur.isEmpty then acc else ⟨cur.reverse⟩ :: acc) cs
    else splitWSAux (c :: cur) acc cs

/-- Python `str.split()` with no argument: split on whitespace runs,
dropping empty fields. -/
def pySplit (s : String) : List String := splitWSAux [] [] s.data

/-- Python `",".join(l)`. -/
def joinComma (l : List String) : String :=
  ⟨List.intercalate [','] (l.map String.data)⟩

/-- Python `<` on strings: lexicographic comparison of code points;
`strLe a b` is the reflexive closure used to model `sorted`. -/
def charsLe : List Char → List Char → Bool
  | [], _ => true
  | _ :: _, [] => false
  | a :: as, b :: bs =>
    if a.toNat < b.toNat then true
    else if b.toNat < a.toNat then false
    else charsLe as bs

/-- Code-point `≤` on strings (the order used by Python's `sorted`). -/
def strLe (a b : String) : Bool := charsLe a.data b.data

theorem charsLe_total : ∀ (a b : List Char), charsLe a b = true ∨ charsLe b a = true
  | [], _ => by simp [charsLe]
  | _ :: _, [] => by simp [charsLe]
  | a :: as, b :: bs => by
    rcases Nat.lt_trichotomy a.toNat b.toNat with h | h | h
    · left; simp [charsLe, h]
    · have h1 : ¬ a.toNat < b.toNat := by omega
      have h2 : ¬ b.toNat < a.toNat := by omega
      rcases charsLe_total as bs with ih | ih
      · left; simp [charsLe, h1, h2, ih]
      · right; simp [charsLe, h1, h2, ih]
    · right; simp [charsLe, h]

theorem charsLe_trans : ∀ (a b c : List Char),
    charsLe a b = true → charsLe b c = true → charsLe a c = true
  | [], _, _ => by simp [charsLe]
  | _ :: _, [], _ => by simp [charsLe]
  | _ :: _, _ :: _, [] => by intro _ h; simp [charsLe] at h
  | a :: as, b :: bs, c :: cs => by
    intro hab hbc
    simp only [charsLe] at hab hbc ⊢
    by_cases h1 : a.toNat < b.toNat <;> by_cases h1' : b.toNat < a.toNat <;>
      by_cases h2 : b.toNat < c.toNat <;> by_cases h2' : c.toNat < b.toNat <;>
      simp only [h1, h1', h2, h2', if_pos, if_neg, if_true, if_false,
        Bool.false_eq_true, not_false_iff] at hab hbc ⊢ <;>
      first
        | omega
        | (have hac : a.toNat < c.toNat := by omega
           simp [hac])
        | (have h3 : ¬ a.toNat < c.toNat := by omega
           have h4 : ¬ c.toNat < a.toNat := by omega
           simp only [h3, h4, if_neg, if_false, Bool.false_eq_true, not_false_iff]
           exact charsLe_trans as bs cs hab hbc)

theorem charsLe_antisymm : ∀ (a b : List Char),
    charsLe a b = true → charsLe b a = true → a = b
  | [], [] => by simp
  | [], _ :: _ => by simp [charsLe]
  | _ :: _, [] => by simp [charsLe]
  | a :: as, b :: bs => by
    intro hab hba
    simp only [charsLe] at hab hba
    rcases Nat.lt_trichotomy a.toNat b.toNat with h | h | h
    · simp [h] at hba
      omega
    · have h1 : ¬ a.toNat < b.toNat := by omega
      have h2 : ¬ b.toNat < a.toNat := by omega
      simp only [h1, h2, if_neg, if_false, Bool.false_eq_true, not_false_iff] at hab hba
      have : a = b := Char.ext (UInt32.ext h)
      rw [this, charsLe_antisymm as bs (by simpa using hab) (by simpa using hba)]
    · simp [h] at hab
      omega

theorem strLe_total (a b : String) : strLe a b = true ∨ strLe b a = true :=
  charsLe_total a.data b.data

theorem strLe_trans (a b c : String) :
    strLe a b = true → strLe b c = true → strLe a c = true :=
  charsLe_trans a.data b.data c.data

theorem strLe_antisymm (a b : String) :
    strLe a b = true → strLe b a = true → a = b := by
  intro h1 h2
  cases a with
  | mk da =>
    cases b with
    | mk db => exact congrArg String.mk (charsLe_antisymm da db h1 h2)

/-- `sorted(symbols)` from Python: stable sort under the code-point order. -/
def pySorted (l : List String) : List String := pySort strLe l

theorem pySorted_eq_of_perm {l₁ l₂ : List String} (h : List.Perm l₁ l₂) :
    pySorted l₁ = pySorted l₂ := by
  have hs₁ := pySort_sorted strLe_total strLe_trans l₁
  have hs₂ := pySort_sorted strLe_total strLe_trans l₂
  have hperm : List.Perm (pySorted l₁) (pySorted l₂) :=
    (pySort_perm strLe l₁).trans (h.trans (pySort_perm strLe l₂).symm)
  haveI : IsAntisymm String (fun x y => strLe x y = true) := ⟨strLe_antisymm⟩
  exact List.eq_of_perm_of_sorted hperm hs₁ hs₂

/-! ## Data model (backend/app/models)

Wall-clock metadata fields (`fetched_at`, `analyzed_at`, `generated_at`)
are process-time stamps with no behavioural content and are not modelled;
prices are ℚ, timestamps of market events are ℤ seconds since the epoch. -/

/-- models/holdings.py: `Holding`. -/
structure Holding where
  symbol : String
  name : String := ""
  shares : ℚ := 0
  average_cost : Option ℚ := none
  current_price : Option ℚ := none
  market_value : Option ℚ := none
  sector : Option String := none
  deriving DecidableEq

/-- models/holdings.py: `HoldingPerformance`. -/
structure HoldingPerformance where
  symbol : String
  name : String
  shares : ℚ
  current_price : Option ℚ
  previous_close : Option ℚ
  change_amount : Option ℚ := none
  change_percent : Option ℚ := none
  day_high : Option ℚ := none
  day_low : Option ℚ := none
  volume : Option ℤ := none
  market_value : Option ℚ := none
  is_high_fluctuation : Bool := false
  deriving DecidableEq

/-- models/analysis.py: `FluctuationAlert`. -/
structure FluctuationAlert where
  symbol : String
  name : String
  change_percent : ℚ
  change_amount : Option ℚ := none
  current_price : Option ℚ := none
  previous_close : Option ℚ := none
  direction : String
  volume : Option ℤ := none
  deriving DecidableEq

/-- models/analysis.py: `EarningsEvent` (earnings_date as epoch seconds). -/
structure EarningsEvent where
  symbol : String
  name : String
  earnings_date : ℤ
  time_of_day : Option String := none
  eps_estimate : Option ℚ := none
  revenue_estimate : Option ℚ := none
  days_until : ℤ
  deriving DecidableEq

/-- models/analysis.py: `NewsItem` (published_at as epoch seconds). -/
structure NewsItem where
  symbol : String
  title : String
  publisher : String
  link : String
  published_at : Option ℤ := none
  summary : Option String := none
  thumbnail_url : Option String := none
  deriving DecidableEq

/-- models/agent.py: `AgentSummary`. -/
structure AgentSummary where
  summary : String
  key_insights : List String := []
  recommendations : List String := []
  risk_factors : List String := []
  model_used : String := ""
  deriving DecidableEq

/-- models/agent.py: `AnalyzeRequest`. -/
structure AnalyzeRequest where
  force_refresh : Bool := false
  include_news : Bool := true
  include_earnings : Bool := true
  deriving DecidableEq

/-- models/agent.py: `AnalyzeResponse`. -/
structure AnalyzeResponse where
  summary : Option AgentSummary := none
  fluctuation_alerts : List FluctuationAlert := []
  upcoming_earnings : List EarningsEvent := []
  news_items : List NewsItem := []
  holdings_count : ℕ := 0
  status : String := "success"
  error : Option String := none
  deriving DecidableEq

/-- config.py: `Settings` (the fields the modelled components read). -/
structure Settings where
  llm_provider : String := "anthropic"
  llm_model : String := "claude-3-sonnet-20240229"
  openai_api_key : String := ""
  anthropic_api_key : String := ""
  local_llm_url : String := "http://localhost:11434"
  scheduler_cron : String := "0 9,16 * * 1-5"
  fluctuation_threshold : ℚ := 5
  earnings_cache_hours : ℤ := 4
  news_cache_minutes : ℤ := 30
  deriving DecidableEq

/-! ## Performance analyzer (services/performance_analyzer.py) -/

/-- The fields `_get_stock_performance` reads out of `ticker.info`
(the yfinance interface boundary). -/
structure QuoteInfo where
  currentPrice : Option ℚ := none
  regularMarketPrice : Option ℚ := none
  previousClose : Option ℚ := none
  regularMarketPreviousClose : Option ℚ := none
  shortName : String := ""
  dayHigh : Option ℚ := none
  dayLow : Option ℚ := none
  volume : Option ℤ := none
  deriving DecidableEq

/-- Python truthiness of an optional number (`None`, `0` and `0.0` are
falsy). -/
def otruthy : Option ℚ → Bool
  | some q => q != 0
  | none => false

/-- Python `a or b` on two optional numbers (as in
`info.get("currentPrice") or info.get("regularMarketPrice")`). -/
def numOr (a b : Option ℚ) : Option ℚ := if otruthy a then a else b

/-- `PerformanceAnalyzer._get_stock_performance`, lines 66-117.  The
yfinance call is the boundary: `info = none` models the `except` branch
(any lookup failure), `info = some qi` the successfully fetched
`ticker.info` fields. -/
def get_stock_performance (s : Settings) (holding : Holding)
    (info : Option QuoteInfo) : HoldingPerformance :=
  match info with
  | none =>
    { symbol := holding.symbol, name := holding.name, shares := holding.shares
      current_price := none, previous_close := none, is_high_fluctuation := false }
  | some qi =>
    let current_price := numOr qi.currentPrice qi.regularMarketPrice
    let previous_close := numOr qi.previousClose qi.regularMarketPreviousClose
    let c := current_price.getD 0
    let p := previous_close.getD 0
    let both := otruthy current_price && otruthy previous_close
    { symbol := holding.symbol
      name := if holding.name = "" then qi.shortName else holding.name
      shares := holding.shares
      current_price := current_price
      previous_close := previous_close
      change_amount := if both then some (c - p) else none
      change_percent := if both then some ((c - p) / p * 100) else none
      day_high := qi.dayHigh
      day_low := qi.dayLow
      volume := qi.volume
      market_value := if otruthy current_price && (holding.shares != 0)
        then some (c * holding.shares) else none
      is_high_fluctuation := if both
        then decide (s.fluctuation_threshold ≤ |(c - p) / p * 100|) else false }

/-- `PerformanceAnalyzer.analyze_holdings` fan-out body: one quote per
holding; quote failures yield degraded records, never abort the batch
(`performances` never contains `None`, so the source's filter keeps all). -/
def analyze_holdings (s : Settings) (quote : String → Option QuoteInfo)
    (holdings : List Holding) : List HoldingPerformance :=
  holdings.map (fun h => get_stock_performance s h (quote h.symbol))

/-- The record-to-alert step of `get_fluctuation_alerts` (lines 134-145):
only records with the flag set AND a non-null change percent produce an
alert. -/
def alertOf (p : HoldingPerformance) : Option FluctuationAlert :=
  if p.is_high_fluctuation then
    match p.change_percent with
    | some cp =>
      some { symbol := p.symbol, name := p.name, change_percent := cp
             change_amount := p.change_amount, current_price := p.current_price
             previous_close := p.previous_close
             direction := if 0 < cp then "up" else "down"
             volume := p.volume }
    | none => none
  else none

/-- Sort relation of `alerts.sort(key=lambda x: abs(x.change_percent),
reverse=True)`: `a` may stay in front of `b` iff its key is not smaller. -/
def alertGE (a b : FluctuationAlert) : Bool :=
  decide (|b.change_percent| ≤ |a.change_percent|)

/-- `PerformanceAnalyzer.get_fluctuation_alerts`, lines 119-150. -/
def get_fluctuation_alerts (performances : List HoldingPerformance) :
    List FluctuationAlert :=
  pySort alertGE (performances.filterMap alertOf)

/-! ## TTL cache (cachetools.TTLCache as used by both collectors)

An entry inserted at time `t₀` answers lookups at any time `t` with
`t - t₀ < ttl`; `clear()` drops everything.  The collectors' `maxsize=100`
eviction never matters for the claims (one key per symbol set) and is not
modelled. -/

/-- One cache entry: key, cached list, insertion time. -/
structure CacheEntry (E : Type) where
  key : String
  value : List E
  insertedAt : ℤ
  deriving DecidableEq

/-- The TTL cache state of one collector. -/
structure TTLCacheM (E : Type) where
  ttl : ℤ
  entries : List (CacheEntry E) := []
  deriving DecidableEq

/-- `key in cache` followed by `cache[key]`: first unexpired entry. -/
def TTLCacheM.lookup (c : TTLCacheM E) (t : ℤ) (k : String) : Option (List E) :=
  (c.entries.find? (fun e => e.key == k && decide (t - e.insertedAt < c.ttl))).map
    CacheEntry.value

/-- `cache[key] = value` at time `t`. -/
def TTLCacheM.put (c : TTLCacheM E) (t : ℤ) (k : String) (v : List E) :
    TTLCacheM E :=
  { c with entries := ⟨k, v, t⟩ :: c.entries.filter (fun e => e.key != k) }

/-- `cache.clear()` (the collectors' `clear_cache`). -/
def TTLCacheM.clearAll (c : TTLCacheM E) : TTLCacheM E := { c with entries := [] }

/-! ## Earnings collector (services/earnings_collector.py) -/

/-- What `_get_earnings_for_symbol` extracts from yfinance before the
in-repo window filter: a resolved earnings datetime (epoch seconds),
the display name, and the optional estimates.  `none` models every
boundary failure (no calendar, unparsable date, exception). -/
structure EarnFetch where
  dateTs : ℤ
  name : String
  eps_estimate : Option ℚ := none
  revenue_estimate : Option ℚ := none
  deriving DecidableEq

/-- `EarningsCollector._get_earnings_for_symbol`, lines 70-150.
`days_until = (earnings_date - now).days` is Python floor division of the
second difference by 86400. -/
def get_earnings_for_symbol (fetch : String → Option EarnFetch) (now : ℤ)
    (symbol : String) : Option EarningsEvent :=
  match fetch symbol with
  | none => none
  | some f =>
    let days_until := Int.fdiv (f.dateTs - now) 86400
    if days_until < 0 ∨ 30 < days_until then none
    else some { symbol := symbol, name := f.name, earnings_date := f.dateTs
                eps_estimate := f.eps_estimate
                revenue_estimate := f.revenue_estimate
                days_until := days_until }

/-- Sort relation of `earnings.sort(key=lambda x: x.earnings_date)`. -/
def earnDateLe (a b : EarningsEvent) : Bool :=
  decide (a.earnings_date ≤ b.earnings_date)

/-- `cache_key = ",".join(sorted(symbols))` (earnings collector line 42). -/
def cache_key (symbols : List String) : String := joinComma (pySorted symbols)

/-- `EarningsCollector.get_earnings_for_symbols`, lines 27-68, with the
cache state passed explicitly; the returned flag records whether the
per-symbol fan-out ran (a refetch) or the cache answered. -/
def get_earnings_for_symbols (fetch : String → Option EarnFetch) (now : ℤ)
    (c : TTLCacheM EarningsEvent) (symbols : List String) :
    List EarningsEvent × TTLCacheM EarningsEvent × Bool :=
  let key := cache_key symbols
  match c.lookup now key with
  | some v => (v, c, false)
  | none =>
    let earnings := pySort earnDateLe
      (symbols.filterMap (get_earnings_for_symbol fetch now))
    (earnings, c.put now key earnings, true)

/-- `EarningsCollector.scrape_nasdaq_earnings`, lines 152-209: the row
loop over the parsed earnings table.  `dateOf` is `datetime.strptime`
(`%m/%d/%Y`, `none` = `ValueError`); `rows` are the table rows after the
header, each a list of cell texts.  Note: no 0-30 day window filter is
applied on this path. -/
def scrape_nasdaq_earnings (dateOf : String → Option ℤ) (now : ℤ)
    (symbols : List String) (rows : List (List String)) : List EarningsEvent :=
  let symbols_set := symbols.map pyUpper
  rows.filterMap (fun cols =>
    if cols.length < 3 then none
    else
      let symbol := pyUpper ((cols.get? 0).getD "")
      if symbols_set.contains symbol then
        match dateOf ((cols.get? 1).getD "") with
        | none => none
        | some ts =>
          some { symbol := symbol, name := (cols.get? 2).getD symbol
                 earnings_date := ts
                 days_until := Int.fdiv (ts - now) 86400 }
      else none)

/-! ## News collector (services/news_collector.py) -/

/-- `datetime.min` as epoch seconds (0001-01-01T00:00:00): the sort key
used for news items with no publish time. -/
def pyDatetimeMin : ℤ := -62135596800

/-- Sort key of `get_news_for_symbols` line 67. -/
def newsKeyTS (n : NewsItem) : ℤ := n.published_at.getD pyDatetimeMin

/-- Sort relation of the news sort (`reverse=True`, newest first). -/
def newsGE (a b : NewsItem) : Bool := decide (newsKeyTS b ≤ newsKeyTS a)

/-- Cache key of `get_news_for_symbols` line 40. -/
def news_cache_key (symbols : List String) (max_per_symbol : ℕ) : String :=
  joinComma (pySorted symbols) ++ ":" ++ toString max_per_symbol

/-- `NewsCollector.get_news_for_symbols`, lines 25-74.  `fetch s n`
models `_get_news_for_symbol(s, n)` (entirely a yfinance boundary, total:
it swallows its own exceptions and returns a list). -/
def get_news_for_symbols (fetch : String → ℕ → List NewsItem) (t : ℤ)
    (c : TTLCacheM NewsItem) (symbols : List String)
    (max_per_symbol : ℕ := 5) : List NewsItem × TTLCacheM NewsItem × Bool :=
  let key := news_cache_key symbols max_per_symbol
  match c.lookup t key with
  | some v => (v, c, false)
  | none =>
    let all_news := pySort newsGE
      (List.flatten (symbols.map (fun s => fetch s max_per_symbol)))
    (all_news, c.put t key all_news, true)

/-- `NewsCollector.get_news_for_high_fluctuation`, lines 128-138. -/
def get_news_for_high_fluctuation (fetch : String → ℕ → List NewsItem)
    (t : ℤ) (c : TTLCacheM NewsItem) (symbols : List String) :
    List NewsItem × TTLCacheM NewsItem × Bool :=
  get_news_for_symbols fetch t c symbols 3

/-! ## Holdings fetcher (services/holdings_fetcher.py)

The JSON payload fragment the endpoint can return: item field values are
strings or numbers (`null` values behave exactly like absent keys under
`dict.get` and are identified with them); a top-level dict maps keys to
either such primitives or arrays of candidate items.  `strFloat` is
Python's `float(str)` (`none` = `ValueError`); `.error ()` models an
exception escaping `_parse_holdings` (there is no handler inside it). -/

/-- A primitive JSON field value of a holding item. -/
inductive FieldVal where
  | fstr (s : String)
  | fnum (q : ℚ)
  deriving DecidableEq

/-- Python truthiness of a field value. -/
def truthy : FieldVal → Bool
  | .fstr s => s != ""
  | .fnum q => q != 0

/-- A JSON object used as one holding item. -/
abbrev Item := List (String × FieldVal)

/-- An element of a holdings array: a JSON object or anything else
(non-dict elements are dropped by `_parse_single_holding`). -/
inductive PItem where
  | item (fields : Item)
  | nonDict
  deriving DecidableEq

/-- A value of a top-level JSON dict. -/
inductive TopVal where
  | arrT (xs : List PItem)
  | primT (v : FieldVal)
  deriving DecidableEq

/-- A top-level JSON dict. -/
abbrev TopDict := List (String × TopVal)

/-- The holdings endpoint payload: a bare array or a dict. -/
inductive Payload where
  | arrP (xs : List PItem)
  | objP (d : TopDict)
  deriving DecidableEq

/-- `item.get(k)` (JSON objects have no duplicate keys). -/
def pyGet (it : Item) (k : String) : Option FieldVal :=
  (it.find? (fun e => e.1 == k)).map Prod.snd

/-- `item.get(k₁) or item.get(k₂) or ...`: the first truthy value, else
the last lookup's value. -/
def orChain (it : Item) : List String → Option FieldVal
  | [] => none
  | [k] => pyGet it k
  | k :: ks =>
    match pyGet it k with
    | some v => if truthy v then some v else orChain it ks
    | none => orChain it ks

/-- `item.get(k₁) or ... or item.get(kₙ) or default`: the first truthy
value, `none` meaning the trailing literal default applies. -/
def firstTruthy (it : Item) : List String → Option FieldVal
  | [] => none
  | k :: ks =>
    match pyGet it k with
    | some v => if truthy v then some v else firstTruthy it ks
    | none => firstTruthy it ks

/-- `float(x)` on a present value. -/
def pyFloat (strFloat : String → Option ℚ) : FieldVal → Except Unit ℚ
  | .fnum q => .ok q
  | .fstr s =>
    match strFloat s with
    | some q => .ok q
    | none => .error ()

/-- The `chain; if value: value = float(value)` pattern used for
`average_cost` and `current_price`: a falsy leftover `0` stays `0`, a
falsy leftover `""` fails pydantic float validation. -/
def optFloatField (strFloat : String → Option ℚ) :
    Option FieldVal → Except Unit (Option ℚ)
  | none => .ok none
  | some v =>
    if truthy v then (pyFloat strFloat v).map some
    else
      match v with
      | .fnum q => .ok (some q)
      | .fstr _ => .error ()

/-- The `market_value` logic (lines 147-156): truthy chain value is
converted, otherwise `price × shares` when both are truthy, otherwise the
falsy leftover. -/
def mvField (strFloat : String → Option ℚ) (v? : Option FieldVal)
    (current_price : Option ℚ) (shares : ℚ) : Except Unit (Option ℚ) :=
  let product : Option (Except Unit (Option ℚ)) :=
    if otruthy current_price && (shares != 0)
    then some (.ok (some (current_price.getD 0 * shares))) else none
  match v? with
  | none => (product.getD (.ok none))
  | some v =>
    if truthy v then (pyFloat strFloat v).map some
    else
      product.getD (match v with
        | .fnum q => .ok (some q)
        | .fstr _ => .error ())

/-- The `sector` extraction: a string passes through, `None` stays
`None`, a number fails pydantic str validation. -/
def sectorField : Option FieldVal → Except Unit (Option String)
  | none => .ok none
  | some (.fstr s) => .ok (some s)
  | some (.fnum _) => .error ()

/-- `HoldingsFetcher._parse_single_holding`, lines 96-168. -/
def parse_single_holding (strFloat : String → Option ℚ) :
    PItem → Except Unit (Option Holding)
  | .nonDict => .ok none
  | .item it =>
    match orChain it ["symbol", "ticker", "Symbol", "Ticker"] with
    | none => .ok none
    | some sv =>
      if truthy sv then
        match sv with
        | .fnum _ => .error ()
        | .fstr symbol => do
          let name ← (match firstTruthy it ["name", "company", "Name", "companyName"] with
            | none => .ok ""
            | some (.fstr s) => .ok s
            | some (.fnum _) => .error ())
          let shares ← pyFloat strFloat
            ((firstTruthy it
              ["shares", "quantity", "open_quantity", "Shares", "Quantity"]).getD
              (.fnum 0))
          let average_cost ← optFloatField strFloat
            (orChain it ["average_cost", "averageCost", "average_entry_price", "cost_basis"])
          let current_price ← optFloatField strFloat
            (orChain it ["current_price", "currentPrice", "price"])
          let market_value ← mvField strFloat
            (orChain it ["market_value", "marketValue", "current_market_value", "value"])
            current_price shares
          let sector ← sectorField (orChain it ["sector", "Sector"])
          pure (some { symbol := pyUpper symbol, name := name, shares := shares
                       average_cost := average_cost, current_price := current_price
                       market_value := market_value, sector := sector })
      else .ok none

/-- The item loop of `_parse_holdings` (lines 88-94). -/
def parseItems (strFloat : String → Option ℚ) :
    List PItem → Except Unit (List Holding)
  | [] => .ok []
  | x :: xs => do
    let h? ← parse_single_holding strFloat x
    let rest ← parseItems strFloat xs
    pure (match h? with | some h => h :: rest | none => rest)

/-- `dict.__contains__`. -/
def dictHasKey (d : TopDict) (k : String) : Bool := d.any (fun e => e.1 == k)

/-- `dict.__getitem__` (the source only indexes keys it has checked). -/
def dictGet (d : TopDict) (k : String) : Option TopVal :=
  (d.find? (fun e => e.1 == k)).map Prod.snd

/-- A top-level dict viewed as one holding item (only primitive entries
can be read by `_parse_single_holding`'s `get` calls on this fragment). -/
def toItem (d : TopDict) : Item :=
  d.filterMap (fun e => match e.2 with
    | .primT v => some (e.1, v)
    | .arrT _ => none)

/-- `for item in data[k]` where `data[k]` may not be a list: a string
iterates as characters (all non-dict, all dropped), a number raises. -/
def wrapValueItems : Option TopVal → Except Unit (List PItem)
  | some (.arrT xs) => .ok xs
  | some (.primT (.fstr _)) => .ok []
  | some (.primT (.fnum _)) => .error ()
  | none => .ok []

/-- `HoldingsFetcher._parse_holdings`, lines 62-94: key precedence
`portfolio_holdings`, `holdings`, `data`, `positions`; a dict with none
of them is treated as a single holding. -/
def parse_holdings (strFloat : String → Option ℚ) :
    Payload → Except Unit (List Holding)
  | .arrP xs => parseItems strFloat xs
  | .objP d =>
    if dictHasKey d "portfolio_holdings" then do
      parseItems strFloat (← wrapValueItems (dictGet d "portfolio_holdings"))
    else if dictHasKey d "holdings" then do
      parseItems strFloat (← wrapValueItems (dictGet d "holdings"))
    else if dictHasKey d "data" then do
      parseItems strFloat (← wrapValueItems (dictGet d "data"))
    else if dictHasKey d "positions" then do
      parseItems strFloat (← wrapValueItems (dictGet d "positions"))
    else parseItems strFloat [.item (toItem d)]

/-- models/holdings.py: `HoldingsResponse`. -/
structure HoldingsResponse where
  holdings : List Holding
  total_value : Option ℚ := none
  source : String := "ngrok"
  deriving DecidableEq

/-- `HoldingsFetcher.get_mock_holdings`, lines 170-185. -/
def get_mock_holdings : HoldingsResponse :=
  { holdings :=
      [ { symbol := "AAPL", name := "Apple Inc.", shares := 100, average_cost := some 150 }
      , { symbol := "MSFT", name := "Microsoft Corporation", shares := 50, average_cost := some 350 }
      , { symbol := "GOOGL", name := "Alphabet Inc.", shares := 25, average_cost := some 140 }
      , { symbol := "TSLA", name := "Tesla Inc.", shares := 30, average_cost := some 200 }
      , { symbol := "NVDA", name := "NVIDIA Corporation", shares := 40, average_cost := some 500 } ]
    total_value := none
    source := "mock" }

/-! ## LLM agent (services/llm_agent.py) and the analyze endpoint
(routers/agent.py) -/

/-- `str.lower()` on the ASCII fragment. -/
def pyCharLower (c : Char) : Char :=
  if 65 ≤ c.toNat ∧ c.toNat ≤ 90 then Char.ofNat (c.toNat + 32) else c

/-- `str.lower()` (ASCII fragment). -/
def pyLower (s : String) : String := ⟨s.data.map pyCharLower⟩

/-- `LLMAgent.is_configured`, lines 239-250. -/
def is_configured (s : Settings) : Bool :=
  let provider := pyLower s.llm_provider
  if provider == "openai" then s.openai_api_key != ""
  else if provider == "anthropic" then s.anthropic_api_key != ""
  else if provider == "local" then s.local_llm_url != ""
  else false

/-- The deterministic no-LLM summary built by `analyze_portfolio`
lines 113-125. -/
def fallback_summary (holdings_count fluct_count earnings_count : ℕ) :
    AgentSummary :=
  { summary := "Portfolio analysis complete. " ++ toString holdings_count ++
      " holdings analyzed, " ++ toString fluct_count ++
      " showing significant movement."
    key_insights :=
      [ "Total holdings: " ++ toString holdings_count
      , "High fluctuation stocks: " ++ toString fluct_count
      , "Upcoming earnings: " ++ toString earnings_count ]
    recommendations := ["Configure LLM API key for detailed AI analysis"]
    risk_factors := []
    model_used := "none" }

/-- The external world one `/analyze` run sees: the holdings endpoint
(`.error` = `httpx.HTTPError`), the per-symbol yfinance lookups, and the
LLM's reply (`generate_summary` swallows its own exceptions, so it is a
total boundary). -/
structure RunEnv where
  holdingsFetch : Except Unit HoldingsResponse
  quote : String → Option QuoteInfo
  earningsFetch : String → Option EarnFetch
  newsFetch : String → ℕ → List NewsItem
  llmSummary : AgentSummary
  now : ℤ

/-- The stage pipeline of `analyze_portfolio`, lines 72-136 (the `try`
body up to the built success response).  Collectors are constructed per
request by FastAPI `Depends`, so both caches start empty; a
`force_refresh` clears those already-empty caches. -/
def run_analysis_body (s : Settings) (env : RunEnv) (request : AnalyzeRequest) :
    AnalyzeResponse :=
  let earningsCache : TTLCacheM EarningsEvent := { ttl := s.earnings_cache_hours * 3600 }
  let newsCache : TTLCacheM NewsItem := { ttl := s.news_cache_minutes * 60 }
  let earningsCache := if request.force_refresh then earningsCache.clearAll else earningsCache
  let newsCache := if request.force_refresh then newsCache.clearAll else newsCache
  let holdings_response :=
    match env.holdingsFetch with
    | .ok r => r
    | .error _ => get_mock_holdings
  let performance := analyze_holdings s env.quote holdings_response.holdings
  let fluctuations := get_fluctuation_alerts performance
  let fluctuation_symbols := fluctuations.map FluctuationAlert.symbol
  let all_symbols := holdings_response.holdings.map Holding.symbol
  let earnings :=
    if request.include_earnings then
      (get_earnings_for_symbols env.earningsFetch env.now earningsCache all_symbols).1
    else []
  let news :=
    if request.include_news && !fluctuation_symbols.isEmpty then
      (get_news_for_high_fluctuation env.newsFetch env.now newsCache fluctuation_symbols).1
    else []
  let summary :=
    if is_configured s then env.llmSummary
    else fallback_summary holdings_response.holdings.length fluctuations.length
      earnings.length
  { summary := some summary
    fluctuation_alerts := fluctuations
    upcoming_earnings := earnings
    news_items := news
    holdings_count := holdings_response.holdings.length
    status := "success" }

/-- The module state of routers/agent.py: `_latest_analysis` and
`_analysis_in_progress`. -/
structure AgentState where
  latest : Option AnalyzeResponse := none
  inProgress : Bool := false
  deriving DecidableEq

/-- The `except Exception` response of `analyze_portfolio`,
lines 141-151. -/
def error_response (e : String) : AnalyzeResponse :=
  { summary := none, fluctuation_alerts := [], upcoming_earnings := []
    news_items := [], holdings_count := 0, status := "error", error := some e }

/-- Lines 127-153: commit of a run that was admitted.  `body` is the
outcome of the `try` block (`.error` = an unhandled exception escaping
some stage); the `finally` clears the in-progress flag on both paths,
and only the success path stores `_latest_analysis`. -/
def finish_analyze (st : AgentState) (body : Except String AnalyzeResponse) :
    AgentState × AnalyzeResponse :=
  match body with
  | .ok r => ({ latest := some r, inProgress := false }, r)
  | .error e => ({ st with inProgress := false }, error_response e)

/-- What a `POST /analyze` request returns. -/
inductive AnalyzeOutcome where
  | conflict
  | resp (r : AnalyzeResponse)
  deriving DecidableEq

/-- `analyze_portfolio`, lines 62-153, as one atomic request under the
asyncio event loop (there is no `await` between the in-progress check and
the flag set): a 409 conflict while a run is in progress, otherwise the
run body commits under the `try/finally`. -/
def analyze_portfolio (st : AgentState) (body : Except String AnalyzeResponse) :
    AgentState × AnalyzeOutcome :=
  if st.inProgress then (st, .conflict)
  else
    let p := finish_analyze { st with inProgress := true } body
    (p.1, .resp p.2)

/-- `GET /summary` (lines 156-161). -/
def get_latest_summary (st : AgentState) : Option AgentSummary :=
  match st.latest with
  | some a => a.summary
  | none => none

/-- `GET /fluctuations` (lines 164-172). -/
def get_fluctuations_view (st : AgentState) : List FluctuationAlert × ℕ :=
  match st.latest with
  | some a => (a.fluctuation_alerts, a.fluctuation_alerts.length)
  | none => ([], 0)

/-- `GET /earnings` (lines 175-183). -/
def get_earnings_view (st : AgentState) : List EarningsEvent × ℕ :=
  match st.latest with
  | some a => (a.upcoming_earnings, a.upcoming_earnings.length)
  | none => ([], 0)

/-- `GET /news` (lines 186-194). -/
def get_news_view (st : AgentState) : List NewsItem × ℕ :=
  match st.latest with
  | some a => (a.news_items, a.news_items.length)
  | none => ([], 0)

/-- `GET /status` (lines 197-205): in-progress flag, has-analysis flag,
holdings count of the stored analysis. -/
def get_analysis_status (st : AgentState) : Bool × Bool × ℕ :=
  (st.inProgress, st.latest.isSome,
    match st.latest with
    | some a => a.holdings_count
    | none => 0)

/-! ## Schedule controller (scheduler/jobs.py, routers/scheduler.py) -/

/-- The scheduler state `update_schedule` touches: whether APScheduler is
running and which trigger the portfolio-analysis job currently has.  `T`
is the opaque `CronTrigger` type; its constructor is the library boundary
`ctor` (`none` = the constructor raised). -/
structure SchedState (T : Type) where
  running : Bool := false
  trigger : Option T := none
  deriving DecidableEq

/-- `AnalysisScheduler.update_schedule`, lines 103-126: reject fewer than
5 fields, validate by constructing the trigger, and reschedule the job
only when the scheduler is running. -/
def update_schedule {T : Type} (ctor : List String → Option T)
    (st : SchedState T) (cron_expression : String) :
    Except String (SchedState T) :=
  let cron_parts := pySplit cron_expression
  if cron_parts.length < 5 then
    .error "Cron expression must have at least 5 parts"
  else
    match ctor (cron_parts.take 5) with
    | none => .error "Invalid cron expression"
    | some trigger =>
      .ok (if st.running then { st with trigger := some trigger } else st)

/-- `PUT /scheduler/cron` (routers/scheduler.py lines 83-103): a
`ValueError` becomes HTTP 400 (flag `false`) and leaves the state alone;
otherwise HTTP 200 (flag `true`) with the updated state. -/
def update_cron {T : Type} (ctor : List String → Option T)
    (st : SchedState T) (cron_expression : String) : SchedState T × Bool :=
  match update_schedule ctor st cron_expression with
  | .ok st1 => (st1, true)
  | .error _ => (st, false)

/-- `PerformanceAnalyzer._fetch_quote`, lines 161-185 (note: unlike
`_get_stock_performance`, the previous close is read from
`previousClose` alone, with no fallback key). -/
structure QuickQuote where
  symbol : String
  name : String
  price : Option ℚ
  previous_close : Option ℚ
  change_percent : Option ℚ
  day_high : Option ℚ
  day_low : Option ℚ
  volume : Option ℤ
  deriving DecidableEq

/-- `PerformanceAnalyzer._fetch_quote` body; `info = none` is the
`except` branch. -/
def fetch_quote (symbol : String) (info : Option QuoteInfo) : Option QuickQuote :=
  match info with
  | none => none
  | some qi =>
    let current_price := numOr qi.currentPrice qi.regularMarketPrice
    let previous_close := qi.previousClose
    some { symbol := symbol, name := qi.shortName, price := current_price
           previous_close := previous_close
           change_percent :=
             if otruthy current_price && otruthy previous_close then
               some ((current_price.getD 0 - previous_close.getD 0) /
                 previous_close.getD 0 * 100)
             else none
           day_high := qi.dayHigh, day_low := qi.dayLow, volume := qi.volume }

/-- C1: at most one analysis run executes at a time.  While a run is in
progress (`st.inProgress`), a second `POST /analyze` returns a 409
conflict and leaves the whole state untouched (nothing queued), so the
in-progress run commits from exactly the state it would have committed
from anyway; and the `finally` clears the in-progress flag on every
completion, success or unhandled exception alike. -/
theorem analyze_single_flight (st : AgentState)
    (bodyA bodyB : Except String AnalyzeResponse)
    (h : st.inProgress = true) :
    analyze_portfolio st bodyB = (st, AnalyzeOutcome.conflict) ∧
    finish_analyze (analyze_portfolio st bodyB).1 bodyA = finish_analyze st bodyA ∧
    (∀ (st' : AgentState) (body' : Except String AnalyzeResponse),
      (finish_analyze st' body').1.inProgress = false) := by
  refine ⟨by simp [analyze_portfolio, h], by simp [analyze_portfolio, h], ?_⟩
  intro st' body'
  cases body' <;> simp [finish_analyze]

/-- Witness for C1 at a concrete in-progress state. -/
theorem analyze_single_flight_witness :
    analyze_portfolio { latest := none, inProgress := true }
        (Except.error "second request") =
      ({ latest := none, inProgress := true }, AnalyzeOutcome.conflict) :=
  (analyze_single_flight { latest := none, inProgress := true }
    (Except.ok (error_response "a")) (Except.error "second request") rfl).1

/-- C9: an unhandled exception in a run returns the error-shaped
response (status "error", empty lists, holdings_count 0) but never
installs it as the latest analysis, so every read endpoint keeps serving
the previous snapshot. -/
theorem analyze_error_keeps_snapshot (st : AgentState) (e : String)
    (h : st.inProgress = false) :
    (analyze_portfolio st (Except.error e)).1.latest = st.latest ∧
    (analyze_portfolio st (Except.error e)).2 =
      AnalyzeOutcome.resp (error_response e) ∧
    (error_response e).status = "error" ∧
    (error_response e).fluctuation_alerts = [] ∧
    (error_response e).upcoming_earnings = [] ∧
    (error_response e).news_items = [] ∧
    (error_response e).holdings_count = 0 ∧
    get_latest_summary (analyze_portfolio st (Except.error e)).1 =
      get_latest_summary st ∧
    get_fluctuations_view (analyze_portfolio st (Except.error e)).1 =
      get_fluctuations_view st ∧
    get_earnings_view (analyze_portfolio st (Except.error e)).1 =
      get_earnings_view st ∧
    get_news_view (analyze_portfolio st (Except.error e)).1 =
      get_news_view st ∧
    (get_analysis_status (analyze_portfolio st (Except.error e)).1).2 =
      (get_analysis_status st).2 := by
  simp [analyze_portfolio, h, finish_analyze, error_response,
    get_latest_summary, get_fluctuations_view, get_earnings_view,
    get_news_view, get_analysis_status]

/-- Witness for C9: a failing run after one stored success. -/
theorem analyze_error_keeps_snapshot_witness :
    (analyze_portfolio
        { latest := some { holdings_count := 5 }, inProgress := false }
        (Except.error "boom")).1.latest = some { holdings_count := 5 } :=
  (analyze_error_keeps_snapshot
    { latest := some { holdings_count := 5 }, inProgress := false }
    "boom" rfl).1

/-- C7: with no LLM provider configured the run still succeeds and its
summary is the deterministic template built from the exact holdings,
fluctuation and earnings counts of that run, with `model_used = "none"`;
`run_analysis_body` is a total function, so this path cannot raise. -/
theorem analyze_fallback_summary (s : Settings) (env : RunEnv)
    (request : AnalyzeRequest) (h : is_configured s = false) :
    (run_analysis_body s env request).status = "success" ∧
    (run_analysis_body s env request).summary =
      some (fallback_summary (run_analysis_body s env request).holdings_count
        (run_analysis_body s env request).fluctuation_alerts.length
        (run_analysis_body s env request).upcoming_earnings.length) ∧
    ((run_analysis_body s env request).summary.map AgentSummary.model_used) =
      some "none" := by
  simp [run_analysis_body, h, fallback_summary]

/-- A concrete environment with every external source failing or empty,
used to witness C7 on the default (unconfigured) settings. -/
def envNoLLM : RunEnv :=
  { holdingsFetch := Except.error (), quote := fun _ => none
    earningsFetch := fun _ => none, newsFetch := fun _ _ => []
    llmSummary := { summary := "" }, now := 0 }

/-- Witness for C7 at a concrete unconfigured environment. -/
theorem analyze_fallback_summary_witness :
    (run_analysis_body {} envNoLLM {}).summary.map AgentSummary.model_used =
      some "none" :=
  (analyze_fallback_summary {} envNoLLM {} rfl).2.2

/-- C8 counterexample: on a stopped scheduler (reachable via
`POST /scheduler/stop` or `scheduler_enabled=false`) a valid 5-field
expression is accepted — `update_cron` answers 200 "updated"
(flag `true`) — yet `reschedule_job` is skipped (jobs.py lines 122-126),
so no trigger is installed: the state still has `trigger = none`,
refuting "succeeds and installs the new trigger" as an unconditional
statement. -/
theorem update_cron_stopped_no_install :
    update_cron (fun parts => if parts.length = 5 then some () else none)
        { running := false, trigger := none } "0 9,16 * * 1-5" =
      ({ running := false, trigger := none }, true) := by
  decide

/-- C8 (amended): a cron update with fewer than 5 fields, or whose
trigger construction fails, is rejected with a 400 (flag `false`) and
the current schedule state is untouched; a valid 5-field expression
succeeds, and it installs the newly constructed trigger when the
scheduler is running — on a stopped scheduler it succeeds without
installing anything (the validated expression is discarded). -/
theorem update_cron_validation {T : Type} (ctor : List String → Option T)
    (st : SchedState T) (expr : String) :
    ((pySplit expr).length < 5 → update_cron ctor st expr = (st, false)) ∧
    (ctor ((pySplit expr).take 5) = none →
      update_cron ctor st expr = (st, false)) ∧
    (∀ trig, 5 ≤ (pySplit expr).length →
      ctor ((pySplit expr).take 5) = some trig → st.running = true →
      update_cron ctor st expr = ({ st with trigger := some trig }, true)) ∧
    (∀ trig, 5 ≤ (pySplit expr).length →
      ctor ((pySplit expr).take 5) = some trig → st.running = false →
      update_cron ctor st expr = (st, true)) := by
  refine ⟨?_, ?_, ?_, ?_⟩
  · intro hlen
    simp [update_cron, update_schedule, hlen]
  · intro hctor
    by_cases hlen : (pySplit expr).length < 5
    · simp [update_cron, update_schedule, hlen]
    · simp [update_cron, update_schedule, hlen, hctor]
  · intro trig hlen hctor hrun
    have hlen' : ¬ (pySplit expr).length < 5 := by omega
    simp [update_cron, update_schedule, hlen', hctor, hrun]
  · intro trig hlen hctor hrun
    have hlen' : ¬ (pySplit expr).length < 5 := by omega
    simp [update_cron, update_schedule, hlen', hctor, hrun]

/-- Witness for C8: the spec's scenario pair, with a trigger constructor
that accepts exactly 5 fields. -/
theorem update_cron_validation_witness :
    update_cron (fun parts => if parts.length = 5 then some () else none)
        { running := true, trigger := none } "bad cron" =
      ({ running := true, trigger := none }, false) ∧
    update_cron (fun parts => if parts.length = 5 then some () else none)
        { running := true, trigger := none } "0 9,16 * * 1-5" =
      ({ running := true, trigger := some () }, true) :=
  ⟨(update_cron_validation (fun parts => if parts.length = 5 then some () else none)
      { running := true, trigger := none } "bad cron").1 (by decide),
   (update_cron_validation (fun parts => if parts.length = 5 then some () else none)
      { running := true, trigger := none } "0 9,16 * * 1-5").2.2.1 ()
      (by decide) (by decide) rfl⟩

/-- C2: whenever both the resolved current price and the resolved
previous close are available (present and non-zero, Python truthiness),
the change percent is `(current − previous) / previous × 100` and the
high-fluctuation flag holds exactly when its absolute value reaches the
configured threshold; whenever the previous close is unavailable the
change percent stays null and the flag stays false; the default
threshold is 5.0. -/
theorem perf_change_and_flag (s : Settings) (holding : Holding)
    (qi : QuoteInfo) (c p : ℚ)
    (hc : numOr qi.currentPrice qi.regularMarketPrice = some c) (hc0 : c ≠ 0)
    (hp : numOr qi.previousClose qi.regularMarketPreviousClose = some p)
    (hp0 : p ≠ 0) :
    (get_stock_performance s holding (some qi)).change_percent =
      some ((c - p) / p * 100) ∧
    ((get_stock_performance s holding (some qi)).is_high_fluctuation = true ↔
      s.fluctuation_threshold ≤ |(c - p) / p * 100|) ∧
    (∀ qi' : QuoteInfo,
      otruthy (numOr qi'.previousClose qi'.regularMarketPreviousClose) = false →
      (get_stock_performance s holding (some qi')).change_percent = none ∧
      (get_stock_performance s holding (some qi')).is_high_fluctuation = false) ∧
    (get_stock_performance s holding none).change_percent = none ∧
    (get_stock_performance s holding none).is_high_fluctuation = false ∧
    ({} : Settings).fluctuation_threshold = 5 := by
  have hco : otruthy (numOr qi.currentPrice qi.regularMarketPrice) = true := by
    simp [hc, otruthy, hc0]
  have hpo : otruthy (numOr qi.previousClose qi.regularMarketPreviousClose) = true := by
    simp [hp, otruthy, hp0]
  refine ⟨?_, ?_, ?_, by simp [get_stock_performance], by simp [get_stock_performance], rfl⟩
  · simp [get_stock_performance, hco, hpo, hc, hp, otruthy, hc0, hp0]
  · simp [get_stock_performance, hco, hpo, hc, hp, otruthy, hc0, hp0]
  · intro qi' hfalse
    constructor <;> simp [get_stock_performance, hfalse]

/-- Witness for C2: the spec's scenario `current=110, previous=100`
under the default settings gives +10% and a set flag. -/
theorem perf_change_and_flag_witness :
    (get_stock_performance {} { symbol := "AAPL" }
        (some { currentPrice := some 110, previousClose := some 100 })).change_percent =
      some 10 ∧
    ((get_stock_performance {} { symbol := "AAPL" }
        (some { currentPrice := some 110, previousClose := some 100 })).is_high_fluctuation = true ↔
      ({} : Settings).fluctuation_threshold ≤ |((110 : ℚ) - 100) / 100 * 100|) := by
  have h := perf_change_and_flag {} { symbol := "AAPL" }
    { currentPrice := some 110, previousClose := some 100 } 110 100
    rfl (by norm_num) rfl (by norm_num)
  refine ⟨?_, h.2.1⟩
  rw [h.1]
  norm_num

/-- C10: a resolved previous close of exactly 0 (or a resolved current
price of 0) is treated as missing by both quote paths: change amount and
percent stay null and the flag stays false, and whenever a change percent
is produced the divisor was non-zero, so the division never happens with
a zero previous close. -/
theorem perf_zero_guard (s : Settings) (holding : Holding) (symbol : String)
    (qi : QuoteInfo)
    (hz : numOr qi.previousClose qi.regularMarketPreviousClose = some 0 ∨
      numOr qi.currentPrice qi.regularMarketPrice = some 0) :
    (get_stock_performance s holding (some qi)).change_amount = none ∧
    (get_stock_performance s holding (some qi)).change_percent = none ∧
    (get_stock_performance s holding (some qi)).is_high_fluctuation = false ∧
    (∀ qi' : QuoteInfo, ∀ v : ℚ,
      (get_stock_performance s holding (some qi')).change_percent = some v →
      otruthy (numOr qi'.previousClose qi'.regularMarketPreviousClose) = true) ∧
    (∀ qi' : QuoteInfo,
      (qi'.previousClose = some 0 ∨
        numOr qi'.currentPrice qi'.regularMarketPrice = some 0) →
      (fetch_quote symbol (some qi')).map QuickQuote.change_percent =
        some none) := by
  have hfb : otruthy (numOr qi.previousClose qi.regularMarketPreviousClose) = false ∨
      otruthy (numOr qi.currentPrice qi.regularMarketPrice) = false := by
    rcases hz with hz | hz
    · left; simp [hz, otruthy]
    · right; simp [hz, otruthy]
  refine ⟨?_, ?_, ?_, ?_, ?_⟩
  · rcases hfb with hf | hf <;> simp [get_stock_performance, hf]
  · rcases hfb with hf | hf <;> simp [get_stock_performance, hf]
  · rcases hfb with hf | hf <;> simp [get_stock_performance, hf]
  · intro qi' v hv
    by_cases hpo : otruthy (numOr qi'.previousClose qi'.regularMarketPreviousClose) = true
    · exact hpo
    · exfalso
      simp [get_stock_performance] at hv
      exact hpo hv.1.2
  · intro qi' hz'
    have hfb' : otruthy qi'.previousClose = false ∨
        otruthy (numOr qi'.currentPrice qi'.regularMarketPrice) = false := by
      rcases hz' with hz' | hz'
      · left; simp [hz', otruthy]
      · right; simp [hz', otruthy]
    rcases hfb' with hf | hf <;> simp [fetch_quote, hf]

/-- Witness for C10: a quote reporting previous close 0 yields a null
change percent. -/
theorem perf_zero_guard_witness :
    (get_stock_performance {} { symbol := "X" }
        (some { currentPrice := some 110,
                regularMarketPreviousClose := some 0 })).change_percent = none :=
  (perf_zero_guard {} { symbol := "X" } "X"
    { currentPrice := some 110, regularMarketPreviousClose := some 0 }
    (Or.inl rfl)).2.1

/-- A performance record whose flag is set but whose change percent is
null: constructible in the data model, dropped by
`get_fluctuation_alerts`. -/
def flaggedNullRecord : HoldingPerformance :=
  { symbol := "X", name := "", shares := 0, current_price := none
    previous_close := none, is_high_fluctuation := true }

/-- C4 counterexample: `get_fluctuation_alerts` does not return every
record whose high-fluctuation flag is set — a flagged record with a null
change percent is filtered out (line 135 also tests
`change_percent is not None`), so the output for this one-record list is
empty although the record's flag is set. -/
theorem fluct_alerts_not_exactly_flagged :
    get_fluctuation_alerts [flaggedNullRecord] = [] ∧
    flaggedNullRecord.is_high_fluctuation = true := by
  constructor <;> rfl

/-- C4 (amended): `get_fluctuation_alerts` returns exactly the alerts of
the records whose flag is set AND whose change percent is non-null
(`alertOf`), ordered by non-increasing absolute change percent, with
records of equal absolute change percent kept in their original relative
order (the filtered subsequence at any fixed key is unchanged — a stable
sort). -/
theorem fluct_alerts_sorted_stable (performances : List HoldingPerformance) :
    List.Perm (get_fluctuation_alerts performances)
      (performances.filterMap alertOf) ∧
    (get_fluctuation_alerts performances).Pairwise
      (fun a b => |b.change_percent| ≤ |a.change_percent|) ∧
    (∀ k : ℚ, (get_fluctuation_alerts performances).filter
        (fun a => |a.change_percent| = k) =
      (performances.filterMap alertOf).filter
        (fun a => |a.change_percent| = k)) := by
  have total : ∀ a b, alertGE a b = true ∨ alertGE b a = true := by
    intro a b
    simp only [alertGE, decide_eq_true_eq]
    exact le_total |b.change_percent| |a.change_percent|
  have trans : ∀ a b c, alertGE a b = true → alertGE b c = true →
      alertGE a c = true := by
    intro a b c
    simp only [alertGE, decide_eq_true_eq]
    intro h1 h2
    exact le_trans h2 h1
  have hkey : ∀ a b, alertGE a b = false →
      (fun x : FluctuationAlert => |x.change_percent|) a ≠
      (fun x : FluctuationAlert => |x.change_percent|) b := by
    intro a b hab
    simp only [alertGE, decide_eq_false_iff_not, not_le] at hab
    intro he
    simp only at he
    rw [he] at hab
    exact lt_irrefl _ hab
  refine ⟨pySort_perm alertGE _, ?_, ?_⟩
  · exact (pySort_sorted total trans _).imp (fun h => by
      simpa [alertGE] using h)
  · intro k
    exact filter_pySort hkey (performances.filterMap alertOf) k

/-- A cache lookup only ever returns a value stored in some entry. -/
theorem lookup_mem_values {E : Type} (c : TTLCacheM E) (t : ℤ) (k : String)
    (v : List E) (h : c.lookup t k = some v) :
    ∃ entry ∈ c.entries, entry.value = v := by
  unfold TTLCacheM.lookup at h
  cases hf : c.entries.find?
      (fun e => e.key == k && decide (t - e.insertedAt < c.ttl)) with
  | none => rw [hf] at h; simp at h
  | some entry =>
    rw [hf] at h
    exact ⟨entry, List.mem_of_find?_eq_some hf, by simpa using h⟩

/-- Every event the per-symbol earnings path returns is inside the
0-30 day window (source lines 119-124). -/
theorem get_earnings_for_symbol_window (fetch : String → Option EarnFetch)
    (now : ℤ) (sym : String) (e : EarningsEvent)
    (h : get_earnings_for_symbol fetch now sym = some e) :
    0 ≤ e.days_until ∧ e.days_until ≤ 30 := by
  unfold get_earnings_for_symbol at h
  cases hfetch : fetch sym with
  | none => rw [hfetch] at h; simp at h
  | some f =>
    rw [hfetch] at h
    by_cases hcond : Int.fdiv (f.dateTs - now) 86400 < 0 ∨
        30 < Int.fdiv (f.dateTs - now) 86400
    · simp [hcond] at h
    · simp only [hcond, if_neg, not_false_iff, if_false, Option.some_inj] at h
      rw [← h]
      simp only [not_or, not_lt] at hcond
      exact ⟨hcond.1, hcond.2⟩

/-- The window invariant of the earnings data model. -/
def earningsWindowInv (l : List EarningsEvent) : Prop :=
  ∀ e ∈ l, 0 ≤ e.days_until ∧ e.days_until ≤ 30

/-- C3 (amended): the primary collection path
(`get_earnings_for_symbols`) only ever returns, and only ever caches,
events with `0 ≤ days_until ≤ 30`; the scrape-based backup source
performs no such filtering (see the counterexample). -/
theorem earnings_collect_window (fetch : String → Option EarnFetch)
    (now : ℤ) (c : TTLCacheM EarningsEvent) (symbols : List String)
    (hc : ∀ entry ∈ c.entries, earningsWindowInv entry.value) :
    earningsWindowInv (get_earnings_for_symbols fetch now c symbols).1 ∧
    (∀ entry ∈ (get_earnings_for_symbols fetch now c symbols).2.1.entries,
      earningsWindowInv entry.value) := by
  unfold get_earnings_for_symbols
  cases hl : c.lookup now (cache_key symbols) with
  | some v =>
    simp only [hl]
    obtain ⟨entry, hmem, hval⟩ := lookup_mem_values c now (cache_key symbols) v hl
    exact ⟨hval ▸ hc entry hmem, hc⟩
  | none =>
    simp only [hl]
    have hfiltered : earningsWindowInv
        (pySort earnDateLe (symbols.filterMap (get_earnings_for_symbol fetch now))) := by
      intro e he
      have he' := mem_pySort.mp he
      obtain ⟨sym, _, hs⟩ := List.mem_filterMap.mp he'
      exact get_earnings_for_symbol_window fetch now sym e hs
    refine ⟨hfiltered, ?_⟩
    intro entry hmem
    unfold TTLCacheM.put at hmem
    rcases List.mem_cons.mp hmem with he | he
    · rw [he]
      exact hfiltered
    · exact hc entry (List.mem_of_mem_filter he)

/-- Witness for C3's amended theorem: an empty cache and a fetch whose
only answer lies 40 days out, which is filtered away. -/
theorem earnings_collect_window_witness :
    earningsWindowInv (get_earnings_for_symbols
      (fun _ => some { dateTs := 40 * 86400, name := "Apple Inc." }) 0
      { ttl := 14400 } ["AAPL"]).1 :=
  (earnings_collect_window
    (fun _ => some { dateTs := 40 * 86400, name := "Apple Inc." }) 0
    { ttl := 14400 } ["AAPL"] (by intro entry h; simp at h)).1

/-- C3 counterexample: the backup scrape path returns an event 100 days
in the past (`days_until = -100 < 0`) — it applies no 0-30 day window
filter, so the claim's invariant fails for the backup source. -/
theorem scrape_earnings_no_window_filter :
    scrape_nasdaq_earnings
        (fun s => if s = "01/01/2020" then some 1577836800 else none)
        (1577836800 + 100 * 86400) ["AAPL"]
        [["aapl", "01/01/2020", "Apple Inc."]] =
      [{ symbol := "AAPL", name := "Apple Inc.", earnings_date := 1577836800
         days_until := -100 }] ∧
    ((-100 : ℤ) < 0) := by
  constructor
  · rfl
  · decide

/-- Looking up the key just stored, within the TTL window, returns the
stored value. -/
theorem lookup_put_hit {E : Type} (c : TTLCacheM E) (t₀ t₁ : ℤ) (k : String)
    (v : List E) (h : t₁ - t₀ < c.ttl) :
    (c.put t₀ k v).lookup t₁ k = some v := by
  unfold TTLCacheM.put TTLCacheM.lookup
  simp [List.find?, h]

/-- Permutations of the symbol list produce the same cache key. -/
theorem cache_key_eq_of_perm {l₁ l₂ : List String} (h : List.Perm l₁ l₂) :
    cache_key l₁ = cache_key l₂ :=
  congrArg joinComma (pySorted_eq_of_perm h)

/-- C5: for both collectors the cache key is the sorted, comma-joined
symbol list, so symbol-set permutations share one key; after a first
(fetching) call, a second call with a permuted symbol list inside the TTL
window answers from the cache — same result, same cache state, no
refetch; and after an explicit `clear()` the next call refetches. -/
theorem collector_cache_order_invariance
    (fetchE : String → Option EarnFetch) (fetchN : String → ℕ → List NewsItem)
    (symbols symbols' : List String) (hperm : List.Perm symbols symbols')
    (cE : TTLCacheM EarningsEvent) (cN : TTLCacheM NewsItem)
    (t₀ t₁ : ℤ) (maxPer : ℕ)
    (hwinE : t₁ - t₀ < cE.ttl) (hwinN : t₁ - t₀ < cN.ttl)
    (hmissE : cE.lookup t₀ (cache_key symbols) = none)
    (hmissN : cN.lookup t₀ (news_cache_key symbols maxPer) = none) :
    cache_key symbols = cache_key symbols' ∧
    news_cache_key symbols maxPer = news_cache_key symbols' maxPer ∧
    ((get_earnings_for_symbols fetchE t₀ cE symbols).2.2 = true ∧
     (get_earnings_for_symbols fetchE t₁
        (get_earnings_for_symbols fetchE t₀ cE symbols).2.1 symbols') =
       ((get_earnings_for_symbols fetchE t₀ cE symbols).1,
        (get_earnings_for_symbols fetchE t₀ cE symbols).2.1, false)) ∧
    ((get_news_for_symbols fetchN t₀ cN symbols maxPer).2.2 = true ∧
     (get_news_for_symbols fetchN t₁
        (get_news_for_symbols fetchN t₀ cN symbols maxPer).2.1 symbols' maxPer) =
       ((get_news_for_symbols fetchN t₀ cN symbols maxPer).1,
        (get_news_for_symbols fetchN t₀ cN symbols maxPer).2.1, false)) ∧
    (∀ (c : TTLCacheM EarningsEvent) (t : ℤ),
      (get_earnings_for_symbols fetchE t c.clearAll symbols).2.2 = true) ∧
    (∀ (c : TTLCacheM NewsItem) (t : ℤ),
      (get_news_for_symbols fetchN t c.clearAll symbols maxPer).2.2 = true) := by
  have hkeyE : cache_key symbols = cache_key symbols' :=
    cache_key_eq_of_perm hperm
  have hkeyN : news_cache_key symbols maxPer = news_cache_key symbols' maxPer := by
    unfold news_cache_key
    rw [pySorted_eq_of_perm hperm]
  refine ⟨hkeyE, hkeyN, ⟨?_, ?_⟩, ⟨?_, ?_⟩, ?_, ?_⟩
  · unfold get_earnings_for_symbols
    simp [hmissE]
  · unfold get_earnings_for_symbols
    simp only [hmissE]
    rw [← hkeyE, lookup_put_hit cE t₀ t₁ _ _ hwinE]
  · unfold get_news_for_symbols
    simp [hmissN]
  · unfold get_news_for_symbols
    simp only [hmissN]
    rw [← hkeyN, lookup_put_hit cN t₀ t₁ _ _ hwinN]
  · intro c t
    unfold get_earnings_for_symbols TTLCacheM.clearAll TTLCacheM.lookup
    simp
  · intro c t
    unfold get_news_for_symbols TTLCacheM.clearAll TTLCacheM.lookup
    simp

/-- Witness for C5: the same two-symbol set in both orders, empty caches,
one minute between calls. -/
theorem collector_cache_order_invariance_witness :
    cache_key ["MSFT", "AAPL"] = cache_key ["AAPL", "MSFT"] :=
  (collector_cache_order_invariance (fun _ => none) (fun _ _ => [])
    ["MSFT", "AAPL"] ["AAPL", "MSFT"] (by decide)
    { ttl := 14400 } { ttl := 1800 } 0 60 5 (by decide) (by decide)
    rfl rfl).1

/-- C6: the holdings parser normalizes every enumerated payload shape to
the same list — wrapping the same item array under `portfolio_holdings`,
`holdings`, `data` or `positions` parses exactly like the bare array, and
a dict containing none of the wrapper keys is parsed as a one-element
holdings list. -/
theorem parse_holdings_shape_invariance (strFloat : String → Option ℚ)
    (xs : List PItem) (d : TopDict)
    (hd : dictHasKey d "portfolio_holdings" = false ∧
      dictHasKey d "holdings" = false ∧ dictHasKey d "data" = false ∧
      dictHasKey d "positions" = false) :
    parse_holdings strFloat (.objP [("portfolio_holdings", .arrT xs)]) =
      parse_holdings strFloat (.arrP xs) ∧
    parse_holdings strFloat (.objP [("holdings", .arrT xs)]) =
      parse_holdings strFloat (.arrP xs) ∧
    parse_holdings strFloat (.objP [("data", .arrT xs)]) =
      parse_holdings strFloat (.arrP xs) ∧
    parse_holdings strFloat (.objP [("positions", .arrT xs)]) =
      parse_holdings strFloat (.arrP xs) ∧
    parse_holdings strFloat (.objP d) =
      parseItems strFloat [PItem.item (toItem d)] := by
  refine ⟨rfl, rfl, rfl, rfl, ?_⟩
  simp [parse_holdings, hd.1, hd.2.1, hd.2.2.1, hd.2.2.2]

/-- Witness for C6 at a concrete item and wrapper-free single object. -/
theorem parse_holdings_shape_invariance_witness :
    parse_holdings (fun _ => none)
        (.objP [("holdings", .arrT [PItem.item [("symbol", .fstr "aapl")]])]) =
      parse_holdings (fun _ => none)
        (.arrP [PItem.item [("symbol", .fstr "aapl")]]) ∧
    parse_holdings (fun _ => none)
        (.objP [("symbol", .primT (.fstr "aapl"))]) =
      parseItems (fun _ => none)
        [PItem.item (toItem [("symbol", .primT (.fstr "aapl"))])] :=
  ⟨(parse_holdings_shape_invariance (fun _ => none)
      [PItem.item [("symbol", .fstr "aapl")]]
      [("symbol", .primT (.fstr "aapl"))]
      (by refine ⟨rfl, rfl, rfl, rfl⟩)).2.1,
   (parse_holdings_shape_invariance (fun _ => none)
      [PItem.item [("symbol", .fstr "aapl")]]
      [("symbol", .primT (.fstr "aapl"))]
      (by refine ⟨rfl, rfl, rfl, rfl⟩)).2.2.2.2⟩

end StockCheck
